import Mathlib

/-
Verification development for the Weather-Website repository.

The backend (an Express server) exposes weather endpoints behind an
in-process fixed-window rate limiter; the frontend (App.jsx) keeps a
per-location cache with a time-to-live, deduplicates in-flight requests
and throttles repeated fetches. The definitions below are a shallow
embedding of that code: JavaScript Maps and plain objects used as
key-value stores become association lists, timestamps become Nat
milliseconds, and JavaScript truthiness on optional strings is made
explicit. Fetch outcomes are passed in as explicit values so the
request handlers become pure functions of their inputs.
-/

namespace Weather

/-- Association-list map with string keys, modelling both the backend
JavaScript Map and the frontend plain-object / ref maps. Keys are unique
by construction (set replaces the first occurrence, as Map.set and object
spread do). -/
abbrev StrMap (α : Type) := List (String × α)

/-- Lookup, modelling map.get(k) and obj[k]. -/
def mget {α : Type} : StrMap α → String → Option α
  | [], _ => none
  | kv :: rest, k => if kv.1 == k then some kv.2 else mget rest k

/-- Update, modelling map.set(k, v) and obj spread with a computed key. -/
def mset {α : Type} : StrMap α → String → α → StrMap α
  | [], k, v => [(k, v)]
  | kv :: rest, k, v => if kv.1 == k then (k, v) :: rest else kv :: mset rest k v

/-- Deletion, modelling map.delete(k) and the delete operator. -/
def mdel {α : Type} : StrMap α → String → StrMap α
  | [], _ => []
  | kv :: rest, k => if kv.1 == k then mdel rest k else kv :: mdel rest k

/-- JavaScript truthy-or on an optional string with a string default,
modelling the pattern (x or d) where undefined and the empty string are
falsy. -/
def jsOrString (x : Option String) (d : String) : String :=
  match x with
  | some s => if s = "" then d else s
  | none => d

/-- JavaScript truthy-or of two optional strings, modelling the pattern
(a or b): a is kept when it is present and non-empty, otherwise b is
taken as is. -/
def jsOrOpt (a b : Option String) : Option String :=
  match a with
  | some s => if s = "" then b else some s
  | none => b

/-! Rate limiter (backend server, lines 237-281 of the server source). -/

/-- One entry of the rate-limit store: request count and window reset
time in milliseconds. -/
structure RateEntry where
  count : Nat
  resetTime : Nat
deriving Repr, DecidableEq

/-- The rate-limit store, keyed by client IP. -/
abbrev RateStore := StrMap RateEntry

/-- Configured maximum, modelling Math.max(1, Number(RATE_LIMIT_MAX) or 5):
an unset or unparsable value (none) and a parsed 0 both fall back to 5,
any other parsed value passes through, and the result is clamped to at
least 1. -/
def rateLimitMaxOf (env : Option Int) : Int :=
  max 1 (match env with
         | none => 5
         | some v => if v = 0 then 5 else v)

/-- Decision taken by the rate-limit middleware for one request. -/
inductive RateDecision where
  | next
  | rejected (status : Nat) (retryAfterSeconds : Nat)
deriving Repr, DecidableEq

/-- Opportunistic cleanup, modelling pruneRateLimitStore: a no-op while
the store has fewer than 1000 keys, otherwise every entry whose reset
time has passed is deleted. -/
def pruneRateLimitStore (now : Nat) (s : RateStore) : RateStore :=
  if s.length < 1000 then s
  else s.filter (fun kv => !(kv.2.resetTime < now))

/-- The rate-limit gate for one gated request, modelling rateLimit: after
the opportunistic prune, a missing or expired entry is replaced by a
fresh one with count 1 and resetTime now + window and the request passes;
an entry at or above the maximum rejects with status 429 and a
Retry-After of the remaining window in seconds rounded up, clamped to at
least 1; otherwise the count is incremented and the request passes. -/
def rateLimit (rateLimitMax rateLimitWindowMs now : Nat) (ip : String)
    (s0 : RateStore) : RateDecision × RateStore :=
  let s := pruneRateLimitStore now s0
  match mget s ip with
  | none => (.next, mset s ip ⟨1, now + rateLimitWindowMs⟩)
  | some entry =>
    if entry.resetTime < now then
      (.next, mset s ip ⟨1, now + rateLimitWindowMs⟩)
    else if rateLimitMax ≤ entry.count then
      (.rejected 429 (max 1 ((entry.resetTime - now + 999) / 1000)), s)
    else
      (.next, mset s ip ⟨entry.count + 1, entry.resetTime⟩)

/-- Decisions of a sequence of gated requests from one client, threading
the store through rateLimit. -/
def runRateLimit (m w : Nat) (ip : String) : List Nat → RateStore → List RateDecision × RateStore
  | [], s => ([], s)
  | t :: ts, s =>
    let step := rateLimit m w t ip s
    let rest := runRateLimit m w ip ts step.2
    (step.1 :: rest.1, rest.2)

/-- Stores after each step of a sequence of gated requests. -/
def runRateLimitTrace (m w : Nat) (ip : String) : List Nat → RateStore → List RateStore
  | [], _ => []
  | t :: ts, s =>
    let step := rateLimit m w t ip s
    step.2 :: runRateLimitTrace m w ip ts step.2

/-- Every count stored in every listed store is at most m. -/
def countsWithin (m : Nat) (sts : List RateStore) : Bool :=
  sts.all (fun st => st.all (fun kv => decide (kv.2.count ≤ m)))

/-! Upstream payloads. The provider returns untyped JSON; the handlers
only ever read the fields below through optional chaining, so the
payload is embedded as a structure of optional fields. Numeric fields
are rationals (they are only passed through, never computed with). -/

/-- Condition object of the provider payload. -/
structure RawCondition where
  text : Option String
  icon : Option String
deriving Repr, DecidableEq

/-- Per-day inner object (day field) of a forecastday element. -/
structure RawDayInner where
  maxtemp_c : Option Rat
  mintemp_c : Option Rat
  avgtemp_c : Option Rat
  daily_chance_of_rain : Option Rat
  totalprecip_mm : Option Rat
  maxwind_kph : Option Rat
  condition : Option RawCondition
deriving Repr, DecidableEq

/-- One element of the forecastday array. -/
structure RawDay where
  date : Option String
  day : Option RawDayInner
deriving Repr, DecidableEq

/-- Location object of the provider payload. -/
structure RawLocation where
  name : Option String
  country : Option String
  localtime : Option String
deriving Repr, DecidableEq

/-- Forecast block of the provider payload. -/
structure RawForecastBlock where
  forecastday : Option (List RawDay)
deriving Repr, DecidableEq

/-- Current-conditions block of the provider payload. -/
structure RawCurrent where
  temp_c : Option Rat
  feelslike_c : Option Rat
  humidity : Option Rat
  wind_kph : Option Rat
  wind_dir : Option String
  pressure_mb : Option Rat
  vis_km : Option Rat
  precip_mm : Option Rat
  condition : Option RawCondition
deriving Repr, DecidableEq

/-- Provider-side error object inside an HTTP payload. -/
structure RawError where
  message : Option String
deriving Repr, DecidableEq

/-- A provider payload as the handlers read it. -/
structure RawPayload where
  location : Option RawLocation
  current : Option RawCurrent
  forecast : Option RawForecastBlock
  error : Option RawError
deriving Repr, DecidableEq

/-- Outcome of one fetch of an upstream URL: either an HTTP response
with an ok flag and a decoded JSON payload, or a thrown error (network
failure or undecodable body). -/
inductive FetchOutcome where
  | response (ok : Bool) (data : RawPayload)
  | networkFailure
deriving Repr, DecidableEq

/-- Result value of requestWeather: a data payload or an error message. -/
inductive ReqResult where
  | data (payload : RawPayload)
  | error (msg : String)
deriving Repr, DecidableEq

/-- Modelling requestWeather: a thrown fetch maps to the fixed
unreachable-service message; a response that is not ok, or whose payload
carries an error object, maps to the error message of that object when
present and non-empty, else the generic service-error message; otherwise
the payload is returned as data. -/
def requestWeather (outcome : FetchOutcome) : ReqResult :=
  match outcome with
  | .networkFailure => .error "Unable to reach weather service"
  | .response ok data =>
    if ok = false ∨ data.error.isSome then
      .error (jsOrString (data.error.bind (fun e => e.message)) "Weather service error")
    else
      .data data

/-- Normalized icon URL, modelling normalizeIconUrl: falsy input gives
the empty string, an absolute http URL passes through, anything else is
given the https scheme. -/
def normalizeIconUrl (icon : Option String) : String :=
  match icon with
  | none => ""
  | some i =>
    if i = "" then ""
    else if i.startsWith "http" then i else "https:" ++ i

/-- Forecast-variant day summary produced by mapForecastDay. -/
structure ForecastDay where
  date : String
  maxTemp : Option Rat
  minTemp : Option Rat
  avgTemp : Option Rat
  chanceOfRain : Option Rat
  condition : String
  icon : String
deriving Repr, DecidableEq

/-- History-variant day summary produced by mapHistoryDay. -/
structure HistoryDay where
  date : String
  maxTemp : Option Rat
  minTemp : Option Rat
  avgTemp : Option Rat
  totalPrecip : Option Rat
  maxWind : Option Rat
  condition : String
  icon : String
deriving Repr, DecidableEq

/-- Modelling mapForecastDay. -/
def mapForecastDay (d : RawDay) : ForecastDay :=
  { date := jsOrString d.date ""
  , maxTemp := d.day.bind (fun x => x.maxtemp_c)
  , minTemp := d.day.bind (fun x => x.mintemp_c)
  , avgTemp := d.day.bind (fun x => x.avgtemp_c)
  , chanceOfRain := d.day.bind (fun x => x.daily_chance_of_rain)
  , condition := jsOrString ((d.day.bind (fun x => x.condition)).bind (fun c => c.text)) ""
  , icon := normalizeIconUrl ((d.day.bind (fun x => x.condition)).bind (fun c => c.icon)) }

/-- Modelling mapHistoryDay. -/
def mapHistoryDay (d : RawDay) : HistoryDay :=
  { date := jsOrString d.date ""
  , maxTemp := d.day.bind (fun x => x.maxtemp_c)
  , minTemp := d.day.bind (fun x => x.mintemp_c)
  , avgTemp := d.day.bind (fun x => x.avgtemp_c)
  , totalPrecip := d.day.bind (fun x => x.totalprecip_mm)
  , maxWind := d.day.bind (fun x => x.maxwind_kph)
  , condition := jsOrString ((d.day.bind (fun x => x.condition)).bind (fun c => c.text)) ""
  , icon := normalizeIconUrl ((d.day.bind (fun x => x.condition)).bind (fun c => c.icon)) }

/-- Location part of a response body, with fallbacks to the query and
the empty string, modelling the location object literal of both
handlers. -/
structure LocationOut where
  name : String
  country : String
  localtime : String
deriving Repr, DecidableEq

/-- Modelling the location object built from a payload and the query. -/
def locationOut (p : RawPayload) (q : String) : LocationOut :=
  { name := jsOrString (p.location.bind (fun l => l.name)) q
  , country := jsOrString (p.location.bind (fun l => l.country)) ""
  , localtime := jsOrString (p.location.bind (fun l => l.localtime)) "" }

/-- Current block of the weather response body. -/
structure CurrentOut where
  temperature : Option Rat
  feelslike : Option Rat
  humidity : Option Rat
  wind_speed : Option Rat
  wind_dir : Option String
  pressure : Option Rat
  visibility : Option Rat
  precip : Option Rat
  weather_descriptions : List String
  weather_icons : List String
deriving Repr, DecidableEq

/-- Body of a successful weather response. -/
structure WeatherBody where
  location : LocationOut
  current : CurrentOut
  requestQuery : String
deriving Repr, DecidableEq

/-- Result of the weather endpoint: an error status with a message, or a
success status with a body. -/
inductive WeatherResult where
  | failure (status : Nat) (errorMsg : String)
  | ok (status : Nat) (body : WeatherBody)
deriving Repr, DecidableEq

/-- One run of the weather endpoint together with whether the upstream
call was attempted. -/
structure WeatherRun where
  result : WeatherResult
  upstreamCalled : Bool
deriving Repr, DecidableEq

/-- Modelling the GET /api/weather handler: the effective query is
query or location under JavaScript truthiness; a falsy effective query
returns 400 before any upstream call, a falsy access key returns 500
before any upstream call; a thrown fetch returns 502 with the fixed
unreachable message; a non-ok response or an error payload returns 502
with the provider message when present and non-empty, else the generic
message; otherwise 200 with the mapped body. -/
def weatherHandler (query location accessKey : Option String)
    (outcome : FetchOutcome) : WeatherRun :=
  match jsOrOpt query location with
  | none => ⟨.failure 400 "Missing query parameter", false⟩
  | some q =>
    if q = "" then ⟨.failure 400 "Missing query parameter", false⟩
    else
      match accessKey with
      | none => ⟨.failure 500 "WEATHERAPI_KEY is not set", false⟩
      | some k =>
        if k = "" then ⟨.failure 500 "WEATHERAPI_KEY is not set", false⟩
        else
          match outcome with
          | .networkFailure => ⟨.failure 502 "Unable to reach weather service", true⟩
          | .response ok data =>
            if ok = false ∨ data.error.isSome then
              ⟨.failure 502
                (jsOrString (data.error.bind (fun e => e.message)) "Weather service error"),
               true⟩
            else
              let conditionText :=
                jsOrString ((data.current.bind (fun c => c.condition)).bind (fun c => c.text)) ""
              let iconUrl :=
                normalizeIconUrl ((data.current.bind (fun c => c.condition)).bind (fun c => c.icon))
              ⟨.ok 200
                { location := locationOut data q
                , current :=
                  { temperature := data.current.bind (fun c => c.temp_c)
                  , feelslike := data.current.bind (fun c => c.feelslike_c)
                  , humidity := data.current.bind (fun c => c.humidity)
                  , wind_speed := data.current.bind (fun c => c.wind_kph)
                  , wind_dir := data.current.bind (fun c => c.wind_dir)
                  , pressure := data.current.bind (fun c => c.pressure_mb)
                  , visibility := data.current.bind (fun c => c.vis_km)
                  , precip := data.current.bind (fun c => c.precip_mm)
                  , weather_descriptions := if conditionText = "" then [] else [conditionText]
                  , weather_icons := if iconUrl = "" then [] else [iconUrl] }
                , requestQuery := q },
               true⟩

/-- First forecastday element of a request result, modelling the
optional chain data forecast forecastday index 0 (undefined on error
results and on missing links). -/
def reqFirstDay (r : ReqResult) : Option RawDay :=
  match r with
  | .data p => (p.forecast.bind (fun fb => fb.forecastday)).bind (fun l => l.head?)
  | .error _ => none

/-- History days of the extended response: the first day of each result
in source order, dropping results without one, then mapped. -/
def historyDaysOf (results : List ReqResult) : List HistoryDay :=
  (results.filterMap reqFirstDay).map mapHistoryDay

/-- History error of the extended response, modelling find of the first
result with a truthy error followed by a truthy-or with the empty
string. -/
def historyErrorOf (results : List ReqResult) : String :=
  match results.find? (fun r => match r with
    | .error m => m != ""
    | .data _ => false) with
  | some (.error m) => m
  | _ => ""

/-- Forecast days of the extended response: the forecastday array of the
forecast payload with the first element dropped, mapped, or empty when
the chain is undefined. -/
def forecastDaysOf (p : RawPayload) : List ForecastDay :=
  match p.forecast.bind (fun fb => fb.forecastday) with
  | some days => (days.drop 1).map mapForecastDay
  | none => []

/-- Forecast error note: empty when at least one forecast day remains,
else the fixed unavailability message. -/
def forecastErrorOf (days : List ForecastDay) : String :=
  if days.length = 0 then "Forecast unavailable" else ""

/-- Body of a successful extended response. -/
structure ExtendedBody where
  location : LocationOut
  history : List HistoryDay
  forecast : List ForecastDay
  historyError : String
  forecastError : String
deriving Repr, DecidableEq

/-- Result of the extended endpoint. -/
inductive ExtendedResult where
  | failure (status : Nat) (errorMsg : String)
  | ok (status : Nat) (body : ExtendedBody)
deriving Repr, DecidableEq

/-- One run of the extended endpoint together with whether the forecast
call and the history calls were attempted. -/
structure ExtendedRun where
  result : ExtendedResult
  forecastCalled : Bool
  historyCalled : Bool
deriving Repr, DecidableEq

/-- Modelling the GET /api/weather/extended handler: query and key
checks as in the weather handler; the forecast call is awaited first and
a failed forecast result returns 502 with that message before the
history calls are issued; otherwise the two history results are merged
tolerantly into a 200 body. -/
def extendedHandler (query location accessKey : Option String)
    (forecastOutcome : FetchOutcome) (historyOutcomes : List FetchOutcome) : ExtendedRun :=
  match jsOrOpt query location with
  | none => ⟨.failure 400 "Missing query parameter", false, false⟩
  | some q =>
    if q = "" then ⟨.failure 400 "Missing query parameter", false, false⟩
    else
      match accessKey with
      | none => ⟨.failure 500 "WEATHERAPI_KEY is not set", false, false⟩
      | some k =>
        if k = "" then ⟨.failure 500 "WEATHERAPI_KEY is not set", false, false⟩
        else
          match requestWeather forecastOutcome with
          | .error msg => ⟨.failure 502 msg, true, false⟩
          | .data fdata =>
            let historyResults := historyOutcomes.map requestWeather
            let forecastDays := forecastDaysOf fdata
            ⟨.ok 200
              { location := locationOut fdata q
              , history := historyDaysOf historyResults
              , forecast := forecastDays
              , historyError := historyErrorOf historyResults
              , forecastError := forecastErrorOf forecastDays },
             true, true⟩

/-! Client cache and throttle layer (frontend App.jsx). The model keeps
the state fetchWeather and fetchExtended read and write: the two caches,
the shared cooldown and in-flight maps (shared in the app but with
disjoint key namespaces weather: / extended:), the displayed results and
their status and error strings, and the active location. Purely
presentational state (suggestions, geolocation error, saved quick-list
temperatures, recent searches) is outside the model. -/

/-- A cache entry: the cached response body together with the cachedAt
timestamp attached when it was stored. -/
structure Entry (α : Type) where
  payload : α
  cachedAt : Nat
deriving Repr, DecidableEq

/-- Client state touched by fetchWeather and fetchExtended, with the
weather body type alpha and the extended body type beta abstract. -/
structure ClientState (α β : Type) where
  weatherCache : StrMap (Entry α)
  extendedCache : StrMap (Entry β)
  requestCooldowns : StrMap Nat
  requestInFlight : List String
  weather : Option (Entry α)
  status : String
  errorMsg : String
  extendedData : Option (Entry β)
  extendedStatus : String
  extendedError : String
  activeLocation : String
deriving Repr, DecidableEq

/-- Modelling isCacheFresh with parseCachedAt inlined for entries whose
cachedAt is a number: a zero timestamp is falsy and never fresh,
otherwise the entry is fresh while its age is strictly below the
time-to-live. -/
def isCacheFresh {α : Type} (ttl now : Nat) (e : Entry α) : Bool :=
  if e.cachedAt = 0 then false else decide (now - e.cachedAt < ttl)

/-- Modelling shouldThrottle: a forced call is never throttled and does
not touch the cooldown map; otherwise the call is throttled while the
last recorded call for the key is less than the throttle interval ago,
and a call that passes records the current time for the key. Returns the
throttling decision and the updated cooldown map. -/
def shouldThrottle (throttle now : Nat) (key : String) (force : Bool)
    (cooldowns : StrMap Nat) : Bool × StrMap Nat :=
  if force then (false, cooldowns)
  else
    let last := (mget cooldowns key).getD 0
    if now - last < throttle then (true, cooldowns)
    else (false, mset cooldowns key now)

/-- Synchronous part of fetchWeather up to the decision whether to issue
the network request: trims the location, evicts a stale cache entry,
serves a fresh entry immediately, otherwise consults the in-flight flag
and the throttle (serving the previously read, possibly stale, cached
value as a placeholder when suppressed), and finally marks the request
as started. Returns whether a network request was issued, with the
updated state. -/
def fetchWeatherStep {α β : Type} (ttl throttle now : Nat) (location : String)
    (force : Bool) (s : ClientState α β) : Bool × ClientState α β :=
  let cleaned := location.trim
  if cleaned = "" then (false, s)
  else
    let cached := mget s.weatherCache cleaned
    let isFresh := !force && (match cached with
      | some e => isCacheFresh ttl now e
      | none => false)
    let s1 := match cached with
      | some e =>
        if isCacheFresh ttl now e then s
        else { s with weatherCache := mdel s.weatherCache cleaned }
      | none => s
    let s2 := { s1 with activeLocation := cleaned }
    if isFresh then
      match cached with
      | some e => (false, { s2 with weather := some e, status := "ready", errorMsg := "" })
      | none => (false, s2)
    else
      let throttleKey := "weather:" ++ cleaned.toLower
      if s2.requestInFlight.contains throttleKey then
        match cached with
        | some e => (false, { s2 with weather := some e, status := "ready", errorMsg := "" })
        | none => (false, s2)
      else
        let thr := shouldThrottle throttle now throttleKey force s2.requestCooldowns
        let s3 := { s2 with requestCooldowns := thr.2 }
        if thr.1 then
          match cached with
          | some e => (false, { s3 with weather := some e, status := "ready", errorMsg := "" })
          | none => (false, s3)
        else
          (true, { s3 with status := "loading", errorMsg := "",
                           requestInFlight := throttleKey :: s3.requestInFlight })

/-- Completion of an issued fetchWeather request: on success the body is
cached with the completion time, displayed and marked ready; on failure
the status becomes error with the thrown message (or the fixed fallback
when that message is empty); either way the in-flight flag is cleared. -/
def fetchWeatherResolve {α β : Type} (now : Nat) (location : String)
    (result : Except String α) (s : ClientState α β) : ClientState α β :=
  let cleaned := location.trim
  let throttleKey := "weather:" ++ cleaned.toLower
  let s1 := match result with
    | .ok data =>
      let e : Entry α := ⟨data, now⟩
      { s with weather := some e,
               weatherCache := mset s.weatherCache cleaned e,
               status := "ready", errorMsg := "" }
    | .error msg =>
      { s with status := "error",
               errorMsg := if msg = "" then "Unable to fetch weather data" else msg }
  { s1 with requestInFlight := s1.requestInFlight.erase throttleKey }

/-- Synchronous part of fetchExtended, mirroring fetchWeatherStep on the
extended cache and display fields with the extended: key namespace. -/
def fetchExtendedStep {α β : Type} (ttl throttle now : Nat) (location : String)
    (force : Bool) (s : ClientState α β) : Bool × ClientState α β :=
  let cleaned := location.trim
  if cleaned = "" then (false, s)
  else
    let cached := mget s.extendedCache cleaned
    let isFresh := !force && (match cached with
      | some e => isCacheFresh ttl now e
      | none => false)
    let s1 := match cached with
      | some e =>
        if isCacheFresh ttl now e then s
        else { s with extendedCache := mdel s.extendedCache cleaned }
      | none => s
    if isFresh then
      match cached with
      | some e => (false, { s1 with extendedData := some e, extendedStatus := "ready",
                                    extendedError := "" })
      | none => (false, s1)
    else
      let throttleKey := "extended:" ++ cleaned.toLower
      if s1.requestInFlight.contains throttleKey then
        match cached with
        | some e => (false, { s1 with extendedData := some e, extendedStatus := "ready",
                                      extendedError := "" })
        | none => (false, s1)
      else
        let thr := shouldThrottle throttle now throttleKey force s1.requestCooldowns
        let s3 := { s1 with requestCooldowns := thr.2 }
        if thr.1 then
          match cached with
          | some e => (false, { s3 with extendedData := some e, extendedStatus := "ready",
                                        extendedError := "" })
          | none => (false, s3)
        else
          (true, { s3 with extendedStatus := "loading", extendedError := "",
                           requestInFlight := throttleKey :: s3.requestInFlight })

/-! Temperature display conversion (frontend App.jsx). -/

/-- Modelling toFahrenheit. -/
def toFahrenheit (x : ℚ) : ℚ := x * 9 / 5 + 32

/-- Inverse of the Celsius-to-Fahrenheit display conversion. -/
def fromFahrenheit (y : ℚ) : ℚ := (y - 32) * 5 / 9

/-- Rounding as Math.round: floor of the value plus one half. -/
def jsRound (x : ℚ) : ℤ := ⌊x + 1 / 2⌋

/-- Modelling formatTemp on a numeric value: the converted value rounded
for display, with the unit letter upper-cased. Missing values render as
a double dash. -/
def formatTemp (value : Option ℚ) (unit : String) : String :=
  match value with
  | none => "--"
  | some v =>
    let converted := if unit = "f" then toFahrenheit v else v
    toString (jsRound converted) ++ " " ++ unit.toUpper

/-! Helper lemmas about the association-list map. -/

theorem mget_mset_self {α : Type} (m : StrMap α) (k : String) (v : α) :
    mget (mset m k v) k = some v := by
  induction m with
  | nil => simp [mget, mset]
  | cons kv rest ih =>
    by_cases h : kv.1 = k
    · simp [mset, mget, h]
    · have hb : (kv.1 == k) = false := by simp [h]
      simp [mset, mget, hb, ih]

theorem mget_mdel_self {α : Type} (m : StrMap α) (k : String) :
    mget (mdel m k) k = none := by
  induction m with
  | nil => simp [mget, mdel]
  | cons kv rest ih =>
    by_cases h : kv.1 = k
    · simp [mdel, h, ih]
    · have hb : (kv.1 == k) = false := by simp [h]
      simp [mdel, mget, hb, ih]

/-! Step lemmas for the rate-limit gate on small stores. -/

theorem rateLimit_empty (m w now : Nat) (ip : String) :
    rateLimit m w now ip [] = (.next, [(ip, ⟨1, now + w⟩)]) := by
  simp [rateLimit, pruneRateLimitStore, mget, mset]

theorem rateLimit_singleton_within (m w now : Nat) (ip : String) (c rt : Nat)
    (hnow : now ≤ rt) (hc : c < m) :
    rateLimit m w now ip [(ip, ⟨c, rt⟩)] = (.next, [(ip, ⟨c + 1, rt⟩)]) := by
  have h1 : ¬ rt < now := by omega
  have h2 : ¬ m ≤ c := by omega
  simp [rateLimit, pruneRateLimitStore, mget, mset, h1, h2]

theorem rateLimit_singleton_reject (m w now : Nat) (ip : String) (c rt : Nat)
    (hnow : now ≤ rt) (hc : m ≤ c) :
    rateLimit m w now ip [(ip, ⟨c, rt⟩)] =
      (.rejected 429 (max 1 ((rt - now + 999) / 1000)), [(ip, ⟨c, rt⟩)]) := by
  have h1 : ¬ rt < now := by omega
  simp [rateLimit, pruneRateLimitStore, mget, mset, h1, hc]

theorem rateLimit_singleton_expired (m w now : Nat) (ip : String) (c rt : Nat)
    (h : rt < now) :
    rateLimit m w now ip [(ip, ⟨c, rt⟩)] = (.next, [(ip, ⟨1, now + w⟩)]) := by
  simp [rateLimit, pruneRateLimitStore, mget, mset, h]

/-- C1: with max 5 and a 60000 ms window, six requests from one key
inside a single window are gated as five passes followed by a rejection
with status 429 whose Retry-After is the remaining window rounded up to
seconds and clamped to at least 1; the stored count never exceeds 5
along the way; and a request strictly after the reset time passes and
replaces the entry with count 1 and reset time now plus window. -/
theorem c1_rate_limiter_fixed_window (ip : String) (u1 u2 u3 u4 u5 u6 tLate : Nat)
    (h2 : u2 ≤ u1 + 60000) (h3 : u3 ≤ u1 + 60000) (h4 : u4 ≤ u1 + 60000)
    (h5 : u5 ≤ u1 + 60000) (h6 : u6 ≤ u1 + 60000) (hL : u1 + 60000 < tLate) :
    runRateLimit 5 60000 ip [u1, u2, u3, u4, u5, u6] [] =
      ([.next, .next, .next, .next, .next,
        .rejected 429 (max 1 ((u1 + 60000 - u6 + 999) / 1000))],
       [(ip, ⟨5, u1 + 60000⟩)])
    ∧ 1 ≤ max 1 ((u1 + 60000 - u6 + 999) / 1000)
    ∧ countsWithin 5 (runRateLimitTrace 5 60000 ip [u1, u2, u3, u4, u5, u6] []) = true
    ∧ rateLimit 5 60000 tLate ip [(ip, ⟨5, u1 + 60000⟩)] =
        (.next, [(ip, ⟨1, tLate + 60000⟩)]) := by
  have e1 := rateLimit_empty 5 60000 u1 ip
  have e2 := rateLimit_singleton_within 5 60000 u2 ip 1 (u1 + 60000) h2 (by omega)
  have e3 := rateLimit_singleton_within 5 60000 u3 ip 2 (u1 + 60000) h3 (by omega)
  have e4 := rateLimit_singleton_within 5 60000 u4 ip 3 (u1 + 60000) h4 (by omega)
  have e5 := rateLimit_singleton_within 5 60000 u5 ip 4 (u1 + 60000) h5 (by omega)
  have e6 := rateLimit_singleton_reject 5 60000 u6 ip 5 (u1 + 60000) h6 (by omega)
  refine ⟨?_, Nat.le_max_left _ _, ?_, ?_⟩
  · simp [runRateLimit, e1, e2, e3, e4, e5, e6]
  · simp [runRateLimitTrace, e1, e2, e3, e4, e5, e6, countsWithin]
  · exact rateLimit_singleton_expired 5 60000 tLate ip 5 (u1 + 60000) hL

/-- Witness for C1 at a concrete key and concrete request times. -/
theorem c1_rate_limiter_fixed_window_witness :
    runRateLimit 5 60000 "a" [0, 0, 0, 0, 0, 0] [] =
      ([.next, .next, .next, .next, .next,
        .rejected 429 (max 1 ((0 + 60000 - 0 + 999) / 1000))],
       [("a", ⟨5, 0 + 60000⟩)])
    ∧ 1 ≤ max 1 ((0 + 60000 - 0 + 999) / 1000)
    ∧ countsWithin 5 (runRateLimitTrace 5 60000 "a" [0, 0, 0, 0, 0, 0] []) = true
    ∧ rateLimit 5 60000 60001 "a" [("a", ⟨5, 0 + 60000⟩)] =
        (.next, [("a", ⟨1, 60001 + 60000⟩)]) :=
  c1_rate_limiter_fixed_window "a" 0 0 0 0 0 0 60001
    (by omega) (by omega) (by omega) (by omega) (by omega) (by omega)

/-- C10: the effective maximum parsed from the environment is clamped to
at least 1, and a gated request whose key has no live entry after the
prune (none stored, or the stored reset time has passed) always passes
and stores count 1 with reset time now plus window. -/
theorem c10_rate_limit_max_clamped (env : Option Int) (w now : Nat) (ip : String)
    (s : RateStore)
    (h : mget (pruneRateLimitStore now s) ip = none ∨
         ∃ e, mget (pruneRateLimitStore now s) ip = some e ∧ e.resetTime < now) :
    1 ≤ rateLimitMaxOf env ∧
    (rateLimit (rateLimitMaxOf env).toNat w now ip s).1 = .next ∧
    mget (rateLimit (rateLimitMaxOf env).toNat w now ip s).2 ip = some ⟨1, now + w⟩ := by
  refine ⟨le_max_left _ _, ?_, ?_⟩
  · rcases h with h | ⟨e, he, hlt⟩
    · simp [rateLimit, h]
    · simp [rateLimit, he, hlt]
  · rcases h with h | ⟨e, he, hlt⟩
    · simp [rateLimit, h, mget_mset_self]
    · simp [rateLimit, he, hlt, mget_mset_self]

/-- Witness for C10 with a zero environment maximum and an empty store. -/
theorem c10_rate_limit_max_clamped_witness :
    1 ≤ rateLimitMaxOf (some 0) ∧
    (rateLimit (rateLimitMaxOf (some 0)).toNat 60000 7 "a" []).1 = .next ∧
    mget (rateLimit (rateLimitMaxOf (some 0)).toNat 60000 7 "a" []).2 "a" =
      some ⟨1, 7 + 60000⟩ :=
  c10_rate_limit_max_clamped (some 0) 60000 7 "a" [] (Or.inl rfl)

/-! Lemmas about requestWeather error messages. -/

theorem jsOrString_ne_empty (x : Option String) (d : String) (hd : d ≠ "") :
    jsOrString x d ≠ "" := by
  cases x with
  | none => simpa [jsOrString]
  | some s =>
    by_cases hs : s = "" <;> simp [jsOrString, hs, hd]

theorem requestWeather_error_ne_empty (o : FetchOutcome) (m : String)
    (h : requestWeather o = .error m) : m ≠ "" := by
  cases o with
  | networkFailure =>
    simp only [requestWeather, ReqResult.error.injEq] at h
    rw [← h]
    decide
  | response ok data =>
    by_cases hc : ok = false ∨ data.error.isSome
    · simp only [requestWeather, if_pos hc, ReqResult.error.injEq] at h
      rw [← h]
      exact jsOrString_ne_empty _ "Weather service error" (by decide)
    · simp only [requestWeather, if_neg hc] at h
      exact ReqResult.noConfusion h

/-- C2: a request to the extended endpoint with a non-empty query and a
set credential whose forecast call fails returns 502 with exactly the
forecast error message, whatever the history outcomes would have been;
the history calls are not even issued. -/
theorem c2_extended_forecast_required (q k msg : String) (hq : q ≠ "") (hk : k ≠ "")
    (fo : FetchOutcome) (houts : List FetchOutcome)
    (hf : requestWeather fo = .error msg) :
    extendedHandler (some q) none (some k) fo houts = ⟨.failure 502 msg, true, false⟩ := by
  simp [extendedHandler, jsOrOpt, hq, hk, hf]

/-- Witness for C2 with an unreachable forecast upstream. -/
theorem c2_extended_forecast_required_witness :
    extendedHandler (some "a") none (some "k") .networkFailure
        [.networkFailure, .networkFailure] =
      ⟨.failure 502 "Unable to reach weather service", true, false⟩ :=
  c2_extended_forecast_required "a" "k" "Unable to reach weather service"
    (by decide) (by decide) .networkFailure [.networkFailure, .networkFailure] rfl

/-- C3: when the forecast call succeeds and both history calls fail, the
extended endpoint answers 200 with an empty history, a historyError equal
to the first history error message (which is never empty), and a forecast
populated from the forecast payload; and when both history calls succeed
with a first day each, the history lists those days in source order,
offset one before offset two. -/
theorem c3_extended_history_merge (q k m1 m2 : String) (hq : q ≠ "") (hk : k ≠ "")
    (fo o1 o2 o3 o4 : FetchOutcome) (fdata p3 p4 : RawPayload) (d3 d4 : RawDay)
    (hf : requestWeather fo = .data fdata)
    (h1 : requestWeather o1 = .error m1)
    (h2 : requestWeather o2 = .error m2)
    (h3 : requestWeather o3 = .data p3)
    (h3d : reqFirstDay (.data p3) = some d3)
    (h4 : requestWeather o4 = .data p4)
    (h4d : reqFirstDay (.data p4) = some d4) :
    extendedHandler (some q) none (some k) fo [o1, o2] =
      ⟨.ok 200
        { location := locationOut fdata q
        , history := []
        , forecast := forecastDaysOf fdata
        , historyError := m1
        , forecastError := forecastErrorOf (forecastDaysOf fdata) }, true, true⟩
    ∧ m1 ≠ ""
    ∧ extendedHandler (some q) none (some k) fo [o3, o4] =
      ⟨.ok 200
        { location := locationOut fdata q
        , history := [mapHistoryDay d3, mapHistoryDay d4]
        , forecast := forecastDaysOf fdata
        , historyError := ""
        , forecastError := forecastErrorOf (forecastDaysOf fdata) }, true, true⟩ := by
  have hm1 := requestWeather_error_ne_empty o1 m1 h1
  refine ⟨?_, hm1, ?_⟩
  · simp [extendedHandler, jsOrOpt, hq, hk, hf, h1, h2,
          historyDaysOf, historyErrorOf, reqFirstDay, hm1]
  · simp [extendedHandler, jsOrOpt, hq, hk, hf, h3, h4,
          historyDaysOf, historyErrorOf, h3d, h4d]

/-- Witness for C3 with concrete forecast and history payloads. -/
theorem c3_extended_history_merge_witness :
    extendedHandler (some "a") none (some "k")
        (.response true ⟨none, none, some ⟨some [⟨none, none⟩, ⟨none, none⟩]⟩, none⟩)
        [.networkFailure, .networkFailure] =
      ⟨.ok 200
        { location := locationOut ⟨none, none, some ⟨some [⟨none, none⟩, ⟨none, none⟩]⟩, none⟩ "a"
        , history := []
        , forecast := forecastDaysOf ⟨none, none, some ⟨some [⟨none, none⟩, ⟨none, none⟩]⟩, none⟩
        , historyError := "Unable to reach weather service"
        , forecastError := forecastErrorOf (forecastDaysOf
            ⟨none, none, some ⟨some [⟨none, none⟩, ⟨none, none⟩]⟩, none⟩) }, true, true⟩
    ∧ "Unable to reach weather service" ≠ ""
    ∧ extendedHandler (some "a") none (some "k")
        (.response true ⟨none, none, some ⟨some [⟨none, none⟩, ⟨none, none⟩]⟩, none⟩)
        [.response true ⟨none, none, some ⟨some [⟨none, none⟩]⟩, none⟩,
         .response true ⟨none, none, some ⟨some [⟨none, none⟩]⟩, none⟩] =
      ⟨.ok 200
        { location := locationOut ⟨none, none, some ⟨some [⟨none, none⟩, ⟨none, none⟩]⟩, none⟩ "a"
        , history := [mapHistoryDay ⟨none, none⟩, mapHistoryDay ⟨none, none⟩]
        , forecast := forecastDaysOf ⟨none, none, some ⟨some [⟨none, none⟩, ⟨none, none⟩]⟩, none⟩
        , historyError := ""
        , forecastError := forecastErrorOf (forecastDaysOf
            ⟨none, none, some ⟨some [⟨none, none⟩, ⟨none, none⟩]⟩, none⟩) }, true, true⟩ :=
  c3_extended_history_merge "a" "k"
    "Unable to reach weather service" "Unable to reach weather service"
    (by decide) (by decide)
    (.response true ⟨none, none, some ⟨some [⟨none, none⟩, ⟨none, none⟩]⟩, none⟩)
    .networkFailure .networkFailure
    (.response true ⟨none, none, some ⟨some [⟨none, none⟩]⟩, none⟩)
    (.response true ⟨none, none, some ⟨some [⟨none, none⟩]⟩, none⟩)
    ⟨none, none, some ⟨some [⟨none, none⟩, ⟨none, none⟩]⟩, none⟩
    ⟨none, none, some ⟨some [⟨none, none⟩]⟩, none⟩
    ⟨none, none, some ⟨some [⟨none, none⟩]⟩, none⟩
    ⟨none, none⟩ ⟨none, none⟩
    rfl rfl rfl rfl rfl rfl rfl

/-- C7 counterexample: a request with no query parameter but a location
parameter is not answered 400; the handler accepts the location value as
the effective query and calls upstream. -/
theorem c7_counterexample_location_accepted :
    (weatherHandler none (some "Berlin") (some "k")
        (.response true ⟨none, none, none, none⟩)).upstreamCalled = true
    ∧ weatherHandler none (some "Berlin") (some "k")
        (.response true ⟨none, none, none, none⟩) =
      ⟨.ok 200 ⟨⟨"Berlin", "", ""⟩,
        ⟨none, none, none, none, none, none, none, none, [], []⟩, "Berlin"⟩, true⟩ := by
  constructor <;> rfl

/-- C7 amended: a request whose query string has neither a non-empty
query parameter nor a non-empty location parameter is answered 400 with
the missing-parameter error body by both endpoints, and no upstream call
is attempted. -/
theorem c7_missing_query_amended (q l k : Option String) (fo : FetchOutcome)
    (houts : List FetchOutcome)
    (hq : q = none ∨ q = some "") (hl : l = none ∨ l = some "") :
    weatherHandler q l k fo = ⟨.failure 400 "Missing query parameter", false⟩ ∧
    extendedHandler q l k fo houts = ⟨.failure 400 "Missing query parameter", false, false⟩ := by
  rcases hq with rfl | rfl <;> rcases hl with rfl | rfl <;>
    simp [weatherHandler, extendedHandler, jsOrOpt]

/-- Witness for the amended C7 with both parameters absent. -/
theorem c7_missing_query_amended_witness :
    weatherHandler none none (some "k") .networkFailure =
      ⟨.failure 400 "Missing query parameter", false⟩ ∧
    extendedHandler none none (some "k") .networkFailure [] =
      ⟨.failure 400 "Missing query parameter", false, false⟩ :=
  c7_missing_query_amended none none (some "k") .networkFailure []
    (Or.inl rfl) (Or.inl rfl)

/-- C8: whatever the ok flag of the upstream response (including an HTTP
200), a payload carrying a provider error object makes the weather
endpoint answer 502, forwarding the provider message verbatim when it is
present and non-empty, and the generic service-error message when the
provider message is absent. -/
theorem c8_provider_error_forwarded (q k m : String) (hq : q ≠ "") (hk : k ≠ "")
    (resOk : Bool) (data data2 : RawPayload) (e e2 : RawError)
    (he : data.error = some e) (hm : e.message = some m) (hm' : m ≠ "")
    (he2 : data2.error = some e2) (hm2 : e2.message = none) :
    weatherHandler (some q) none (some k) (.response resOk data) =
      ⟨.failure 502 m, true⟩ ∧
    weatherHandler (some q) none (some k) (.response resOk data2) =
      ⟨.failure 502 "Weather service error", true⟩ := by
  constructor <;>
    simp [weatherHandler, jsOrOpt, hq, hk, he, hm, he2, hm2, jsOrString, hm']

/-- Witness for C8 on an HTTP 200 response carrying a provider error. -/
theorem c8_provider_error_forwarded_witness :
    weatherHandler (some "a") none (some "k")
        (.response true ⟨none, none, none, some ⟨some "City not found"⟩⟩) =
      ⟨.failure 502 "City not found", true⟩ ∧
    weatherHandler (some "a") none (some "k")
        (.response true ⟨none, none, none, some ⟨none⟩⟩) =
      ⟨.failure 502 "Weather service error", true⟩ :=
  c8_provider_error_forwarded "a" "k" "City not found" (by decide) (by decide)
    true ⟨none, none, none, some ⟨some "City not found"⟩⟩ ⟨none, none, none, some ⟨none⟩⟩
    ⟨some "City not found"⟩ ⟨none⟩ rfl rfl (by decide) rfl rfl

/-- Evaluation of the core uppercase function on the unit letter f,
unfolded manually since it recurses by well-founded recursion. -/
theorem string_toUpper_f : "f".toUpper = "F" := by
  have h1 : String.mapAux Char.toUpper (("f".set 0 ("f".get 0).toUpper).next 0)
      ("f".set 0 ("f".get 0).toUpper) = "F" := by
    rw [String.mapAux]; decide
  rw [String.toUpper, String.map, String.mapAux, dif_neg (by decide : ¬ "f".atEnd 0 = true)]
  exact h1

/-- C9: the inverse display conversion composed with toFahrenheit is the
identity on the rationals; and the concrete 21.5 degrees Celsius maps to
70.7 degrees Fahrenheit, is displayed as the rounded 71 F, and converting
the displayed value back to Celsius lands within the half-unit rounding
tolerance 5/18 of the original 21.5. -/
theorem c9_temperature_round_trip :
    (∀ x : ℚ, fromFahrenheit (toFahrenheit x) = x)
    ∧ toFahrenheit (43 / 2) = 707 / 10
    ∧ jsRound (707 / 10) = 71
    ∧ |fromFahrenheit ((jsRound (toFahrenheit (43 / 2)) : ℤ) : ℚ) - 43 / 2| ≤ 5 / 18
    ∧ formatTemp (some (43 / 2)) "f" = "71 F" := by
  have h2 : toFahrenheit ((43 : ℚ) / 2) = 707 / 10 := by
    unfold toFahrenheit; norm_num
  have h3 : jsRound ((707 : ℚ) / 10) = 71 := by
    unfold jsRound
    rw [show (707 : ℚ) / 10 + 1 / 2 = 356 / 5 by norm_num]
    rw [Int.floor_eq_iff]
    norm_num
  refine ⟨?_, h2, h3, ?_, ?_⟩
  · intro x; unfold toFahrenheit fromFahrenheit; ring
  · rw [h2, h3]
    unfold fromFahrenheit
    rw [abs_le]
    norm_num
  · have hform : formatTemp (some (43 / 2)) "f" =
        toString (jsRound (toFahrenheit (43 / 2))) ++ " " ++ "f".toUpper := by
      simp [formatTemp]
    rw [hform, h2, h3, string_toUpper_f]
    decide

/-! Evaluation lemmas for the string literal used as concrete location
in the client-side witnesses. The core trim and lowercase functions
recurse by well-founded recursion, so they are evaluated here by one
manual unfolding each. -/

theorem string_trim_a : "a".trim = "a" := by
  have hb : Substring.takeWhileAux "a" "a".endPos Char.isWhitespace ⟨0⟩ = ⟨0⟩ := by
    rw [Substring.takeWhileAux]; decide
  have he : Substring.takeRightWhileAux "a" ⟨0⟩ Char.isWhitespace "a".endPos = "a".endPos := by
    rw [Substring.takeRightWhileAux]; decide
  rw [String.trim, Substring.trim]
  show Substring.toString _ = "a"
  rw [String.toSubstring]
  simp only [hb, he]
  decide

theorem string_toLower_a : "a".toLower = "a" := by
  have h1 : String.mapAux Char.toLower (("a".set 0 ("a".get 0).toLower).next 0)
      ("a".set 0 ("a".get 0).toLower) = "a" := by
    rw [String.mapAux]; decide
  rw [String.toLower, String.map, String.mapAux, dif_neg (by decide : ¬ "a".atEnd 0 = true)]
  exact h1

/-- C4 counterexample: a non-forced fetchWeather call that is throttled
and whose only cached value is stale does serve that stale value: the
entry (cached at 1, age 301000, time-to-live 300000) is evicted from the
cache but still displayed with status ready, not dropped as a no-op. -/
theorem c4_counterexample_stale_served :
    fetchWeatherStep (α := Unit) (β := Unit) 300000 1200 301001 "a" false
      ⟨[("a", ⟨(), 1⟩)], [], [("weather:a", 300600)], [], none, "idle", "", none, "idle", "", ""⟩ =
      (false,
       ⟨[], [], [("weather:a", 300600)], [], some ⟨(), 1⟩, "ready", "", none, "idle", "", "a"⟩)
    ∧ 300000 ≤ 301001 - 1 := by
  constructor
  · simp only [fetchWeatherStep, string_trim_a, string_toLower_a]
    decide
  · decide

/-- C4 amended: on every fetch that finds a stale cache entry the entry
is evicted from the cache (for fetchWeather and fetchExtended alike);
when neither the in-flight flag nor the throttle suppresses the call, a
network request is issued with status loading and the stale data is not
displayed; but a suppressed non-forced call serves the stale value it
read before eviction as a placeholder result with status ready. -/
theorem c4_stale_eviction (ttl throttle now : Nat) (loc : String)
    (force : Bool) (s : ClientState Unit Unit) (entry entry2 : Entry Unit)
    (hc : loc.trim ≠ "")
    (he : mget s.weatherCache loc.trim = some entry)
    (h0 : entry.cachedAt ≠ 0) (hstale : ttl ≤ now - entry.cachedAt)
    (he2 : mget s.extendedCache loc.trim = some entry2)
    (h02 : entry2.cachedAt ≠ 0) (hstale2 : ttl ≤ now - entry2.cachedAt) :
    mget (fetchWeatherStep ttl throttle now loc force s).2.weatherCache loc.trim = none
    ∧ mget (fetchExtendedStep ttl throttle now loc force s).2.extendedCache loc.trim = none
    ∧ (("weather:" ++ loc.trim.toLower) ∉ s.requestInFlight →
       throttle ≤ now - (mget s.requestCooldowns ("weather:" ++ loc.trim.toLower)).getD 0 →
       fetchWeatherStep ttl throttle now loc false s =
         (true, { s with weatherCache := mdel s.weatherCache loc.trim,
                         activeLocation := loc.trim,
                         requestCooldowns := mset s.requestCooldowns
                           ("weather:" ++ loc.trim.toLower) now,
                         status := "loading", errorMsg := "",
                         requestInFlight :=
                           ("weather:" ++ loc.trim.toLower) :: s.requestInFlight }))
    ∧ (("weather:" ++ loc.trim.toLower) ∈ s.requestInFlight →
       fetchWeatherStep ttl throttle now loc false s =
         (false, { s with weatherCache := mdel s.weatherCache loc.trim,
                          activeLocation := loc.trim,
                          weather := some entry, status := "ready", errorMsg := "" })) := by
  have hfrW : isCacheFresh ttl now entry = false := by
    simp only [isCacheFresh, if_neg h0, decide_eq_false_iff_not]
    omega
  have hfrE : isCacheFresh ttl now entry2 = false := by
    simp only [isCacheFresh, if_neg h02, decide_eq_false_iff_not]
    omega
  refine ⟨?_, ?_, ?_, ?_⟩
  · by_cases hifl : ("weather:" ++ loc.trim.toLower) ∈ s.requestInFlight
    · simp [fetchWeatherStep, hc, he, hfrW, hifl, mget_mdel_self]
    · by_cases hforce : force = true
      · simp [fetchWeatherStep, hc, he, hfrW, hifl, hforce, shouldThrottle, mget_mdel_self]
      · by_cases hth :
          now - (mget s.requestCooldowns ("weather:" ++ loc.trim.toLower)).getD 0 < throttle
        · simp [fetchWeatherStep, hc, he, hfrW, hifl, hforce, shouldThrottle, hth,
                mget_mdel_self]
        · simp [fetchWeatherStep, hc, he, hfrW, hifl, hforce, shouldThrottle, hth,
                mget_mdel_self]
  · by_cases hifl : ("extended:" ++ loc.trim.toLower) ∈ s.requestInFlight
    · simp [fetchExtendedStep, hc, he2, hfrE, hifl, mget_mdel_self]
    · by_cases hforce : force = true
      · simp [fetchExtendedStep, hc, he2, hfrE, hifl, hforce, shouldThrottle, mget_mdel_self]
      · by_cases hth :
          now - (mget s.requestCooldowns ("extended:" ++ loc.trim.toLower)).getD 0 < throttle
        · simp [fetchExtendedStep, hc, he2, hfrE, hifl, hforce, shouldThrottle, hth,
                mget_mdel_self]
        · simp [fetchExtendedStep, hc, he2, hfrE, hifl, hforce, shouldThrottle, hth,
                mget_mdel_self]
  · intro hifl hth
    have hth' : ¬ now - (mget s.requestCooldowns ("weather:" ++ loc.trim.toLower)).getD 0
        < throttle := by omega
    simp [fetchWeatherStep, hc, he, hfrW, hifl, shouldThrottle, hth']
  · intro hifl
    simp [fetchWeatherStep, hc, he, hfrW, hifl]

/-- Witness for the amended C4 on a concrete stale state. -/
theorem c4_stale_eviction_witness :
    mget (fetchWeatherStep (α := Unit) (β := Unit) 300000 1200 301001 "a" false
      ⟨[("a", ⟨(), 1⟩)], [("a", ⟨(), 1⟩)], [], [], none, "idle", "", none, "idle", "",
       ""⟩).2.weatherCache "a".trim = none
    ∧ mget (fetchExtendedStep (α := Unit) (β := Unit) 300000 1200 301001 "a" false
      ⟨[("a", ⟨(), 1⟩)], [("a", ⟨(), 1⟩)], [], [], none, "idle", "", none, "idle", "",
       ""⟩).2.extendedCache "a".trim = none := by
  have h := c4_stale_eviction 300000 1200 301001 "a" false
    ⟨[("a", ⟨(), 1⟩)], [("a", ⟨(), 1⟩)], [], [], none, "idle", "", none, "idle", "", ""⟩
    ⟨(), 1⟩ ⟨(), 1⟩
    (by rw [string_trim_a]; decide)
    (by rw [string_trim_a]; decide) (by decide) (by decide)
    (by rw [string_trim_a]; decide) (by decide) (by decide)
  exact ⟨h.1, h.2.1⟩

/-- C5: a cache entry is served directly, with no network call and no
touch of the throttle state, by a non-forced fetchWeather at any age
strictly below the time-to-live; at any age at least the time-to-live
the entry is evicted and, with no in-flight request and a cooldown no
newer than the entry, a fresh network request is issued. -/
theorem c5_cache_ttl_boundary {α β : Type} (ttl throttle d1 d2 : Nat) (loc : String)
    (s : ClientState α β) (entry : Entry α)
    (hc : loc.trim ≠ "")
    (he : mget s.weatherCache loc.trim = some entry)
    (hpos : 0 < entry.cachedAt)
    (hfresh : d1 < ttl)
    (hstale : ttl ≤ d2)
    (hnofl : ("weather:" ++ loc.trim.toLower) ∉ s.requestInFlight)
    (hcool : (mget s.requestCooldowns ("weather:" ++ loc.trim.toLower)).getD 0 ≤ entry.cachedAt)
    (httl : throttle ≤ ttl) :
    fetchWeatherStep ttl throttle (entry.cachedAt + d1) loc false s =
      (false, { s with activeLocation := loc.trim, weather := some entry,
                       status := "ready", errorMsg := "" })
    ∧ fetchWeatherStep ttl throttle (entry.cachedAt + d2) loc false s =
      (true, { s with weatherCache := mdel s.weatherCache loc.trim,
                      activeLocation := loc.trim,
                      requestCooldowns := mset s.requestCooldowns
                        ("weather:" ++ loc.trim.toLower) (entry.cachedAt + d2),
                      status := "loading", errorMsg := "",
                      requestInFlight :=
                        ("weather:" ++ loc.trim.toLower) :: s.requestInFlight }) := by
  have h0 : entry.cachedAt ≠ 0 := by omega
  have hfr1 : isCacheFresh ttl (entry.cachedAt + d1) entry = true := by
    simp only [isCacheFresh, if_neg h0, decide_eq_true_eq]
    omega
  have hfr2 : isCacheFresh ttl (entry.cachedAt + d2) entry = false := by
    simp only [isCacheFresh, if_neg h0, decide_eq_false_iff_not]
    omega
  constructor
  · simp [fetchWeatherStep, hc, he, hfr1]
  · have hth : ¬ (entry.cachedAt + d2) -
        (mget s.requestCooldowns ("weather:" ++ loc.trim.toLower)).getD 0 < throttle := by
      omega
    simp [fetchWeatherStep, hc, he, hfr2, hnofl, shouldThrottle, hth]

/-- Witness for C5 at ages one below and one above a 300000 ms
time-to-live. -/
theorem c5_cache_ttl_boundary_witness :
    fetchWeatherStep (α := Unit) (β := Unit) 300000 1200 (1000 + 299999) "a" false
        ⟨[("a", ⟨(), 1000⟩)], [], [], [], none, "idle", "", none, "idle", "", ""⟩ =
      (false, ⟨[("a", ⟨(), 1000⟩)], [], [], [], some ⟨(), 1000⟩, "ready", "",
               none, "idle", "", "a".trim⟩)
    ∧ fetchWeatherStep (α := Unit) (β := Unit) 300000 1200 (1000 + 300001) "a" false
        ⟨[("a", ⟨(), 1000⟩)], [], [], [], none, "idle", "", none, "idle", "", ""⟩ =
      (true, ⟨mdel [("a", ⟨(), 1000⟩)] "a".trim, [],
              mset [] ("weather:" ++ "a".trim.toLower) (1000 + 300001),
              [("weather:" ++ "a".trim.toLower)], none, "loading", "",
              none, "idle", "", "a".trim⟩) :=
  c5_cache_ttl_boundary 300000 1200 299999 300001 "a"
    ⟨[("a", ⟨(), 1000⟩)], [], [], [], none, "idle", "", none, "idle", "", ""⟩ ⟨(), 1000⟩
    (by rw [string_trim_a]; decide)
    (by rw [string_trim_a]; decide)
    (by decide) (by decide) (by decide)
    (by simp)
    (by decide) (by decide)

/-- C6: starting from an empty cache and idle throttle state, a first
non-forced fetchWeather issues a network request; a second non-forced
call for the same key 500 ms later is suppressed both while the first is
still in flight and after the first failed (throttle interval 1200 ms);
a forced call at the same moment issues a request after a failure and
even when the resolved cache entry is still fresh, but is still
suppressed while the first request is in flight; and a non-forced call
with the fresh resolved entry serves the cache without a request. -/
theorem c6_throttle_and_forced_refresh {α β : Type} (ttl t0 tr : Nat) (loc : String)
    (a : α) (ec : StrMap (Entry β)) (w : Option (Entry α)) (st er : String)
    (ed : Option (Entry β)) (es ee al : String)
    (hc : loc.trim ≠ "")
    (ht0 : 1200 ≤ t0) (htr0 : t0 ≤ tr) (htr : tr ≤ t0 + 500)
    (hfr : t0 + 500 - tr < ttl) :
    let s0 : ClientState α β := ⟨[], ec, [], [], w, st, er, ed, es, ee, al⟩
    let s1 := (fetchWeatherStep ttl 1200 t0 loc false s0).2
    let s2err := fetchWeatherResolve tr loc (.error "boom") s1
    let s2ok := fetchWeatherResolve tr loc (.ok a) s1
    (fetchWeatherStep ttl 1200 t0 loc false s0).1 = true
    ∧ (fetchWeatherStep ttl 1200 (t0 + 500) loc false s2err).1 = false
    ∧ (fetchWeatherStep ttl 1200 (t0 + 500) loc false s1).1 = false
    ∧ (fetchWeatherStep ttl 1200 (t0 + 500) loc true s2err).1 = true
    ∧ (fetchWeatherStep ttl 1200 (t0 + 500) loc true s1).1 = false
    ∧ (fetchWeatherStep ttl 1200 (t0 + 500) loc true s2ok).1 = true
    ∧ (fetchWeatherStep ttl 1200 (t0 + 500) loc false s2ok).1 = false := by
  intro s0 s1 s2err s2ok
  have hth0 : ¬ t0 < 1200 := by omega
  have e1 : fetchWeatherStep ttl 1200 t0 loc false s0 =
      (true, ⟨[], ec, [("weather:" ++ loc.trim.toLower, t0)],
              ["weather:" ++ loc.trim.toLower], w, "loading", "", ed, es, ee, loc.trim⟩) := by
    simp [s0, fetchWeatherStep, mget, hc, shouldThrottle, hth0, mset]
  have e2err : s2err =
      ⟨[], ec, [("weather:" ++ loc.trim.toLower, t0)], [], w, "error", "boom",
       ed, es, ee, loc.trim⟩ := by
    simp [s2err, s1, e1, fetchWeatherResolve, List.erase_cons_head]
  have e2ok : s2ok =
      ⟨[(loc.trim, ⟨a, tr⟩)], ec, [("weather:" ++ loc.trim.toLower, t0)], [],
       some ⟨a, tr⟩, "ready", "", ed, es, ee, loc.trim⟩ := by
    simp [s2ok, s1, e1, fetchWeatherResolve, mset, List.erase_cons_head]
  have hget : mget [("weather:" ++ loc.trim.toLower, t0)]
      ("weather:" ++ loc.trim.toLower) = some t0 := by
    simp [mget]
  have hfrOk : isCacheFresh ttl (t0 + 500) (⟨a, tr⟩ : Entry α) = true := by
    have h0 : tr ≠ 0 := by omega
    simp only [isCacheFresh, if_neg h0, decide_eq_true_eq]
    exact hfr
  refine ⟨by rw [e1], ?_, ?_, ?_, ?_, ?_, ?_⟩
  · rw [e2err]
    simp [fetchWeatherStep, mget, hc, shouldThrottle, hget]
  · rw [show s1 = (fetchWeatherStep ttl 1200 t0 loc false s0).2 from rfl, e1]
    simp [fetchWeatherStep, mget, hc]
  · rw [e2err]
    simp [fetchWeatherStep, mget, hc, shouldThrottle]
  · rw [show s1 = (fetchWeatherStep ttl 1200 t0 loc false s0).2 from rfl, e1]
    simp [fetchWeatherStep, mget, hc]
  · rw [e2ok]
    simp [fetchWeatherStep, mget, hc, shouldThrottle, hfrOk]
  · rw [e2ok]
    simp [fetchWeatherStep, mget, hc, hfrOk]

/-- Witness for C6 at concrete times 1200, 1300 and 1700. -/
theorem c6_throttle_and_forced_refresh_witness :
    let s0 : ClientState Unit Unit := ⟨[], [], [], [], none, "idle", "", none, "idle", "", ""⟩
    let s1 := (fetchWeatherStep 300000 1200 1200 "a" false s0).2
    let s2err := fetchWeatherResolve 1300 "a" (.error "boom") s1
    let s2ok := fetchWeatherResolve 1300 "a" (.ok ()) s1
    (fetchWeatherStep 300000 1200 1200 "a" false s0).1 = true
    ∧ (fetchWeatherStep 300000 1200 (1200 + 500) "a" false s2err).1 = false
    ∧ (fetchWeatherStep 300000 1200 (1200 + 500) "a" false s1).1 = false
    ∧ (fetchWeatherStep 300000 1200 (1200 + 500) "a" true s2err).1 = true
    ∧ (fetchWeatherStep 300000 1200 (1200 + 500) "a" true s1).1 = false
    ∧ (fetchWeatherStep 300000 1200 (1200 + 500) "a" true s2ok).1 = true
    ∧ (fetchWeatherStep 300000 1200 (1200 + 500) "a" false s2ok).1 = false :=
  c6_throttle_and_forced_refresh 300000 1200 1300 "a" () [] none "idle" "" none "idle" "" ""
    (by rw [string_trim_a]; decide)
    (by decide) (by decide) (by decide) (by decide)

end Weather
